import Mathlib

/-!
Verification model of the RunCache engine (src/run-cache.ts, the variant with
the event bus: `EVENT` constants, `refetch-failure` events and
`clearEventListeners`).  The engine is embedded shallowly:

* the JavaScript `Map<string, CacheState>` becomes an association list with
  insertion-order-preserving update (`mapSet`);
* `Date.now()` becomes an explicit `now : Nat` parameter;
* `setTimeout` / `clearTimeout` become an explicit list of armed timer ids
  (`Store.armed`) with a fresh-id counter;
* a source function becomes an identifier resolved by an environment
  `env : Nat → Except Unit String` (returning `.error` when the producer
  throws or rejects);
* JavaScript property semantics that matter are kept: the `fetching` field is
  modelled as a three-valued property (`absent` / present-`undefined` /
  present-`true`) because the engine writes object literals such as
  `\x7b fetching: true, ...cached \x7d`, where a spread placed after the
  literal key overrides it whenever the spread object carries the property
  (even with value `undefined`);
* `JSON.stringify` applied to a string is modelled by `jsonStringify`;
* event emission returns the list of `(channel, payload)` pairs that
  `emitEvent` passes to `emitter.emit`; listener dispatch is modelled
  separately (`dispatchAll`) for the claims about the event bus.
-/

/-- JavaScript own-property state of the `fetching` field of a cache entry:
the property can be missing, present with value `undefined`, or present with
value `true`.  Only `isTrue` is truthy. -/
inductive FetchProp where
  | absent
  | undef
  | isTrue
deriving DecidableEq, Repr

/-- Resolution of `\x7b fetching: lit, ...cached \x7d`: the spread comes
after the literal key, so the spread value wins whenever the property is
present on the spread object (even as `undefined`). -/
def spreadFetch (lit : FetchProp) (c : FetchProp) : FetchProp :=
  match c with
  | .absent => lit
  | x => x

/-- The `CacheState` record stored per key (src/run-cache.ts, type
`CacheState`).  `ttl` is stored non-negative (validated by `set`);
`sourceFn` is an identifier resolved by the environment; `timeout` is the id
of the armed timer, when one exists. -/
structure CacheState where
  value : String
  createAt : Nat
  updateAt : Nat
  ttl : Option Nat
  autoRefetch : Option Bool
  fetching : FetchProp
  sourceFn : Option Nat
  timeout : Option Nat
deriving DecidableEq, Repr

/-- Payload handed to `emitter.emit` (type `EventParam`). -/
structure EventParam where
  key : String
  value : String
  ttl : Option Nat
  createAt : Nat
  updateAt : Nat
deriving DecidableEq, Repr

/-- The error taxonomy of the engine: the `throw new Error(...)` validation
exits of `set` and `clearEventListeners`, and the source-function failure
rethrown by `set` and `refetch`. -/
inductive CacheError where
  | emptyKey
  | emptyValueWithoutSourceFn
  | autoRefetchWithoutTtl
  | negativeTtl
  | listenerKeyWithoutEvent
  | sourceFnFailure (key : String)
deriving DecidableEq, Repr

/-- Global mutable state of the engine: the entry map (in insertion order,
like a JavaScript `Map`), the set of armed timeout ids, and the next fresh
timer id. -/
structure Store where
  cache : List (String × CacheState)
  armed : List Nat
  nextTimer : Nat
deriving DecidableEq, Repr

/-- `Map.get`. -/
def mapGet (m : List (String × CacheState)) (k : String) : Option CacheState :=
  match m with
  | [] => none
  | (k', v) :: rest => if k' = k then some v else mapGet rest k

/-- `Map.set`: replaces in place when the key exists, otherwise appends. -/
def mapSet (m : List (String × CacheState)) (k : String) (v : CacheState) :
    List (String × CacheState) :=
  match m with
  | [] => [(k, v)]
  | (k', v') :: rest =>
      if k' = k then (k, v) :: rest else (k', v') :: mapSet rest k v

/-- `Map.delete`. -/
def mapDelete (m : List (String × CacheState)) (k : String) :
    List (String × CacheState) :=
  m.filter (fun p => ¬(p.1 = k))

/-- Lower-case hex digit. -/
def hexDigit (n : Nat) : Char :=
  if n < 10 then Char.ofNat (48 + n) else Char.ofNat (87 + n)

/-- JSON escape of a single character, as `JSON.stringify` performs on the
characters of a string. -/
def jsonEscapeChar (c : Char) : String :=
  if c = Char.ofNat 34 then "\\\""
  else if c = Char.ofNat 92 then "\\\\"
  else if c = Char.ofNat 8 then "\\b"
  else if c = Char.ofNat 9 then "\\t"
  else if c = Char.ofNat 10 then "\\n"
  else if c = Char.ofNat 12 then "\\f"
  else if c = Char.ofNat 13 then "\\r"
  else if c.toNat < 32 then
    "\\u00" ++ String.mk [hexDigit (c.toNat / 16), hexDigit (c.toNat % 16)]
  else String.mk [c]

/-- `JSON.stringify` applied to a string value: the engine stores
`JSON.stringify(value)`, never the raw string. -/
def jsonStringify (s : String) : String :=
  "\"" ++ String.join (s.data.map jsonEscapeChar) ++ "\""

/-- `RunCache.isExpired`: `if (!cache.ttl) return false;` — note that a
`ttl` of `0` is falsy, hence never expires — `return cache.updateAt +
cache.ttl < Date.now();`. -/
def isExpired (c : CacheState) (now : Nat) : Bool :=
  match c.ttl with
  | none => false
  | some t => if t = 0 then false else decide (c.updateAt + t < now)

/-- `RunCache.emitEvent`: one `emitter.emit` on the global channel followed
by one on the key-scoped channel, same payload. -/
def emitEvent (event : String) (p : EventParam) : List (String × EventParam) :=
  [(event, p), (event ++ "-" ++ p.key, p)]

/-- JavaScript truthiness of an optional string (`undefined` and `""` are
falsy). -/
def truthyStr (s : Option String) : Bool :=
  match s with
  | none => false
  | some s => !(s.length = 0)

/-- `RunCache.set`.  `env` resolves source-function identifiers; `now` is
`Date.now()`.  The result is `.ok (store, true)` on success and
`.error (e, store)` when the call throws, carrying the store as it stands at
the throw (the map is only written at the very end, but timer state is
mutated earlier: the previous entry's timeout is cleared before the negative
`ttl` check, and a fresh timer is armed before the source function runs). -/
def setOp (env : Nat → Except Unit String) (now : Nat) (s : Store)
    (key : String) (value : Option String) (ttl : Option Int)
    (autoRefetch : Option Bool) (sourceFn : Option Nat) :
    Except (CacheError × Store) (Store × Bool) :=
  if key.length = 0 then
    .error (.emptyKey, s)
  else if sourceFn = none ∧ (value = none ∨ value = some "") then
    .error (.emptyValueWithoutSourceFn, s)
  else if autoRefetch = some true ∧ (ttl = none ∨ ttl = some 0) then
    .error (.autoRefetchWithoutTtl, s)
  else
    -- const time = Date.now();
    -- clear the existing timeout if the key already exists
    let armed1 :=
      match mapGet s.cache key with
      | some c =>
          match c.timeout with
          | some tid => s.armed.filter (fun t => ¬(t = tid))
          | none => s.armed
      | none => s.armed
    match ttl with
    | some t =>
        if t < 0 then
          .error (.negativeTtl, { s with armed := armed1 })
        else
          -- timeout = setTimeout(..., ttl)
          let tid := s.nextTimer
          let armed2 := armed1 ++ [tid]
          let nt := s.nextTimer + 1
          match value, sourceFn with
          | none, some f =>
              match env f with
              | .ok v =>
                  .ok ({ cache := mapSet s.cache key
                           { value := jsonStringify v, createAt := now,
                             updateAt := now, ttl := some t.toNat,
                             autoRefetch := autoRefetch, fetching := .absent,
                             sourceFn := sourceFn, timeout := some tid },
                         armed := armed2, nextTimer := nt }, true)
              | .error _ =>
                  .error (.sourceFnFailure key,
                          { cache := s.cache, armed := armed2, nextTimer := nt })
          | some v, _ =>
              .ok ({ cache := mapSet s.cache key
                       { value := jsonStringify v, createAt := now,
                         updateAt := now, ttl := some t.toNat,
                         autoRefetch := autoRefetch, fetching := .absent,
                         sourceFn := sourceFn, timeout := some tid },
                     armed := armed2, nextTimer := nt }, true)
          | none, none =>
              -- unreachable: excluded by the value/sourceFn validation
              .error (.emptyValueWithoutSourceFn, s)
    | none =>
        match value, sourceFn with
        | none, some f =>
            match env f with
            | .ok v =>
                .ok ({ cache := mapSet s.cache key
                         { value := jsonStringify v, createAt := now,
                           updateAt := now, ttl := none,
                           autoRefetch := autoRefetch, fetching := .absent,
                           sourceFn := sourceFn, timeout := none },
                       armed := armed1, nextTimer := s.nextTimer }, true)
            | .error _ =>
                .error (.sourceFnFailure key,
                        { cache := s.cache, armed := armed1,
                          nextTimer := s.nextTimer })
        | some v, _ =>
            .ok ({ cache := mapSet s.cache key
                     { value := jsonStringify v, createAt := now,
                       updateAt := now, ttl := none,
                       autoRefetch := autoRefetch, fetching := .absent,
                       sourceFn := sourceFn, timeout := none },
                   armed := armed1, nextTimer := s.nextTimer }, true)
        | none, none =>
            .error (.emptyValueWithoutSourceFn, s)

/-- Result of running `refetch` up to (and including) the synchronous
invocation of the source function.  `.done b s` means the call returned `b`
without invoking the producer; `.started f cached s` means the producer `f`
has been invoked and the call is suspended awaiting it, with `cached` the
entry as read at entry to the call and `s` the store after
`cache.set(key, \x7b fetching: true, ...cached \x7d)`. -/
inductive StartResult where
  | done (b : Bool) (s : Store)
  | started (f : Nat) (cached : CacheState) (s : Store)
deriving DecidableEq, Repr

/-- The synchronous head of `RunCache.refetch`: the three early returns, the
flag write, and the producer invocation, all before the first suspension
point. -/
def refetchStart (s : Store) (key : String) : StartResult :=
  match mapGet s.cache key with
  | none => .done false s
  | some cached =>
      match cached.sourceFn with
      | none => .done false s
      | some f =>
          if cached.fetching = .isTrue then .done false s
          else
            .started f cached
              { s with
                cache := mapSet s.cache key
                  ({ cached with
                     fetching := spreadFetch .isTrue cached.fetching }) }

/-- The success continuation of `refetch`: builds `refetchedCache` (which
drops `autoRefetch` and `timeout`), emits the refetch event, then writes
`\x7b fetching: undefined, ...refetchedCache \x7d`. -/
def refetchFinishSuccess (now : Nat) (s : Store) (key : String)
    (cached : CacheState) (v : String) : Store × List (String × EventParam) :=
  let refetched : CacheState :=
    { value := jsonStringify v, createAt := cached.createAt, updateAt := now,
      ttl := cached.ttl, autoRefetch := none,
      fetching := spreadFetch .undef .absent, sourceFn := cached.sourceFn,
      timeout := none }
  ({ s with cache := mapSet s.cache key refetched },
   emitEvent "refetch"
     { key := key, value := refetched.value, ttl := refetched.ttl,
       createAt := refetched.createAt, updateAt := refetched.updateAt })

/-- The failure continuation of `refetch`: restores the entry read at call
entry (`\x7b fetching: undefined, ...cached \x7d`) and emits the
refetch-failure event with the prior payload; the caller then rethrows. -/
def refetchFinishFailure (s : Store) (key : String) (cached : CacheState) :
    Store × List (String × EventParam) :=
  ({ s with
     cache := mapSet s.cache key
       ({ cached with fetching := spreadFetch .undef cached.fetching }) },
   emitEvent "refetch-failure"
     { key := key, value := cached.value, ttl := cached.ttl,
       createAt := cached.createAt, updateAt := cached.updateAt })

/-- `RunCache.refetch` as a whole: the synchronous head followed by the
success or failure continuation, the producer being resolved by `env` and
`Date.now()` at completion being `now`. -/
def refetchOp (env : Nat → Except Unit String) (now : Nat) (s : Store)
    (key : String) :
    Except (CacheError × Store × List (String × EventParam))
      (Bool × Store × List (String × EventParam)) :=
  match refetchStart s key with
  | .done b s' => .ok (b, s', [])
  | .started f cached s' =>
      match env f with
      | .ok v =>
          let r := refetchFinishSuccess now s' key cached v
          .ok (true, r.1, r.2)
      | .error _ =>
          let r := refetchFinishFailure s' key cached
          .error (.sourceFnFailure key, r.1, r.2)

/-- `RunCache.get`.  Returns the value when present and not expired; on a
detected expiry emits the expire event and either deletes the entry (no
source function or no auto-refetch) or awaits `refetch` and re-reads.  A
`SourceFunctionError` from the awaited `refetch` propagates. -/
def getOp (env : Nat → Except Unit String) (now : Nat) (s : Store)
    (key : String) :
    Except (CacheError × Store × List (String × EventParam))
      (Option String × Store × List (String × EventParam)) :=
  if key.length = 0 then .ok (none, s, [])
  else
    match mapGet s.cache key with
    | none => .ok (none, s, [])
    | some cached =>
        if isExpired cached now = false then .ok (some cached.value, s, [])
        else
          let tr1 := emitEvent "expire"
            { key := key, value := cached.value, ttl := cached.ttl,
              createAt := cached.createAt, updateAt := cached.updateAt }
          if cached.sourceFn = none ∨ ¬(cached.autoRefetch = some true) then
            .ok (none, { s with cache := mapDelete s.cache key }, tr1)
          else
            match refetchOp env now s key with
            | .ok (_, s', tr2) =>
                .ok ((mapGet s'.cache key).map (fun c => c.value), s',
                     tr1 ++ tr2)
            | .error (e, s', tr2) => .error (e, s', tr1 ++ tr2)

/-- `RunCache.has`: reports presence-and-freshness; on a detected expiry
emits the expire event and returns false, performing no write. -/
def hasOp (now : Nat) (s : Store) (key : String) :
    Bool × Store × List (String × EventParam) :=
  match mapGet s.cache key with
  | none => (false, s, [])
  | some cached =>
      if isExpired cached now then
        (false, s,
         emitEvent "expire"
           { key := key, value := cached.value, ttl := cached.ttl,
             createAt := cached.createAt, updateAt := cached.updateAt })
      else (true, s, [])

/-- The emitter's listener table: `(channel, listener id)` pairs in
registration order, as maintained by `emitter.on`. -/
abbrev Emitter := List (String × Nat)

/-- Listener ids registered on one channel, in registration order
(`emitter.emit` invokes them synchronously in this order). -/
def emitterMatched (em : Emitter) (ch : String) : List Nat :=
  (em.filter (fun p => p.1 = ch)).map Prod.snd

/-- One `emitter.emit` call: every listener on the channel is invoked
synchronously; the returned promises are ignored, so the asynchronous tail
of every async listener (classified by `lenv`) is left pending. -/
def dispatchEvent (em : Emitter) (lenv : Nat → Bool)
    (e : String × EventParam) : List Nat × List Nat :=
  let ids := emitterMatched em e.1
  (ids, ids.filter lenv)

/-- Dispatch of every emission an operation performed, in order: the first
component lists the synchronous handler invocations, the second the
asynchronous handler tails that are still pending when the operation
proceeds (the engine never awaits them). -/
def dispatchAll (em : Emitter) (lenv : Nat → Bool)
    (tr : List (String × EventParam)) : List Nat × List Nat :=
  tr.foldl
    (fun acc e =>
      let d := dispatchEvent em lenv e
      (acc.1 ++ d.1, acc.2 ++ d.2))
    ([], [])

/-- `RunCache.has` together with the listener dispatch its emission
performs: result, store, synchronously invoked handlers, and handler tails
still pending when `has` returns. -/
def hasRun (em : Emitter) (lenv : Nat → Bool) (now : Nat) (s : Store)
    (key : String) : Bool × Store × List Nat × List Nat :=
  let r := hasOp now s key
  (r.1, r.2.1, dispatchAll em lenv r.2.2)

/-- `emitter.eventNames()`: the distinct channels that currently have
listeners. -/
def eventNamesOf (em : Emitter) : List String :=
  (em.map Prod.fst).dedup

/-- `emitter.removeAllListeners(ch)`. -/
def removeAllListenersOn (em : Emitter) (ch : String) : Emitter :=
  em.filter (fun p => ¬(p.1 = ch))

/-- JavaScript `String.prototype.startsWith`: the search string is a
prefix of the receiver's code units. -/
def strStartsWith (s p : String) : Bool :=
  p.data.isPrefixOf s.data

/-- The kind-scoped loop of `clearEventListeners`: for every current event
name that starts with the given kind, remove its listeners. -/
def clearByKindLoop (em : Emitter) (ev : String) (names : List String) :
    Emitter :=
  names.foldl
    (fun acc name =>
      if strStartsWith name ev then removeAllListenersOn acc name else acc)
    em

/-- `RunCache.clearEventListeners`.  `params = none` models calling with no
argument; otherwise the pair holds the optional `event` and `key` fields.
Kind-scoped clearing removes the kind channel and then every currently
registered channel whose name starts with the kind string. -/
def clearEventListeners (em : Emitter)
    (params : Option (Option String × Option String)) :
    Except CacheError (Bool × Emitter) :=
  match params with
  | none => .ok (true, [])
  | some (ev, key) =>
      if truthyStr key ∧ ¬(truthyStr ev = true) then
        .error .listenerKeyWithoutEvent
      else if truthyStr ev ∧ truthyStr key then
        .ok (true,
             removeAllListenersOn em ((ev.getD "") ++ "-" ++ (key.getD "")))
      else if truthyStr ev then
        let em1 := removeAllListenersOn em (ev.getD "")
        .ok (true, clearByKindLoop em1 (ev.getD "") (eventNamesOf em1))
      else
        .ok (false, em)

theorem mapGet_mapSet_self (m : List (String × CacheState)) (k : String)
    (v : CacheState) : mapGet (mapSet m k v) k = some v := by
  induction m with
  | nil => simp [mapSet, mapGet]
  | cons hd tl ih =>
      by_cases h : hd.1 = k
      · simp [mapSet, mapGet, h]
      · simp [mapSet, mapGet, h, ih]

theorem clearByKindLoop_cons (em : Emitter) (ev n : String)
    (rest : List String) :
    clearByKindLoop em ev (n :: rest)
      = clearByKindLoop
          (if strStartsWith n ev then removeAllListenersOn em n else em)
          ev rest := by
  by_cases h : strStartsWith n ev <;> simp [clearByKindLoop, h]

theorem mem_clearByKindLoop (names : List String) :
    ∀ (em : Emitter) (ev : String) (p : String × Nat),
      p ∈ clearByKindLoop em ev names → p ∈ em := by
  induction names with
  | nil => intro em ev p hp; simpa [clearByKindLoop] using hp
  | cons n rest ih =>
      intro em ev p hp
      rw [clearByKindLoop_cons] at hp
      have := ih _ ev p hp
      by_cases h : strStartsWith n ev
      · rw [if_pos h] at this
        exact List.mem_of_mem_filter this
      · rwa [if_neg h] at this

theorem clearByKindLoop_removes (names : List String) :
    ∀ (em : Emitter) (ev name : String), name ∈ names →
      strStartsWith name ev = true →
      ∀ p : String × Nat, p ∈ clearByKindLoop em ev names → ¬(p.1 = name) := by
  induction names with
  | nil => intro em ev name hn; cases hn
  | cons n rest ih =>
      intro em ev name hn hs p hp
      rw [clearByKindLoop_cons] at hp
      rcases List.mem_cons.mp hn with h1 | h1
      · subst h1
        rw [if_pos hs] at hp
        have hmem := mem_clearByKindLoop rest _ ev p hp
        simp only [removeAllListenersOn, List.mem_filter] at hmem
        simpa using hmem.2
      · exact ih _ ev name h1 hs p hp

deriving instance DecidableEq for Except

/-! ## Claim C1: single-flight ordering of `refetch` -/

/-- Environment whose only source function always produces `"v"`. -/
def c1Env : Nat → Except Unit String := fun _ => .ok "v"

/-- The empty store. -/
def emptyStore : Store := { cache := [], armed := [], nextTimer := 0 }

/-- The store produced by `set(\x7bkey:"k", sourceFn\x7d)` at time 0: the
entry carries no own `fetching` property yet. -/
def c1SetStore : Store :=
  { cache := [("k",
      { value := "\"v\"", createAt := 0, updateAt := 0, ttl := none,
        autoRefetch := none, fetching := .absent, sourceFn := some 0,
        timeout := none })],
    armed := [], nextTimer := 0 }

/-- The entry after one completed `refetch`: the write
`\x7b fetching: undefined, ...refetchedCache \x7d` leaves an own `fetching`
property with value `undefined` on the stored object. -/
def c1Entry : CacheState :=
  { value := "\"v\"", createAt := 0, updateAt := 1, ttl := none,
    autoRefetch := none, fetching := .undef, sourceFn := some 0,
    timeout := none }

/-- The store after `set` followed by one completed `refetch`. -/
def c1Store : Store := { cache := [("k", c1Entry)], armed := [], nextTimer := 0 }

/-- C1: the claim fails on the code.  The state below is reached by an
ordinary `set` followed by one completed `refetch` (first two conjuncts).
From it, a first `refetch` call invokes the producer, but its flag write
`cache.set(key, \x7b fetching: true, ...cached \x7d)` is overridden by the
spread of `cached`, which carries an own `fetching: undefined` property —
the store is left completely unchanged (third conjunct), with the entry’s
`fetching` still not `true` (fourth conjunct).  A second back-to-back
`refetch` call issued without an intervening suspension therefore runs on
the identical store and again reaches `.started`, invoking the producer a
second time instead of observing `fetching=true` and returning false as the
claim requires. -/
theorem refetch_single_flight_broken_after_completed_refetch :
    setOp c1Env 0 emptyStore "k" none none none (some 0)
        = .ok (c1SetStore, true)
    ∧ refetchOp c1Env 1 c1SetStore "k"
        = .ok (true, c1Store,
            emitEvent "refetch"
              { key := "k", value := "\"v\"", ttl := none, createAt := 0,
                updateAt := 1 })
    ∧ refetchStart c1Store "k" = .started 0 c1Entry c1Store
    ∧ (mapGet c1Store.cache "k").map CacheState.fetching ≠ some .isTrue := by
  refine ⟨by decide, by decide, by decide, by decide⟩

/-! ## Claim C2: failed `set` and the observable state -/

/-- A store holding one entry for `"k"` whose expiry timer (id 0) is
armed. -/
def c2Store : Store :=
  { cache := [("k",
      { value := "\"v\"", createAt := 0, updateAt := 0, ttl := some 100,
        autoRefetch := none, fetching := .absent, sourceFn := none,
        timeout := some 0 })],
    armed := [0], nextTimer := 1 }

/-- An environment whose source functions always fail. -/
def failEnv : Nat → Except Unit String := fun _ => .error ()

/-- The state left by the failing negative-`ttl` `set` below: the armed
timer 0 is gone. -/
def c2AfterNegTtl : Store :=
  { cache := c2Store.cache, armed := [], nextTimer := 1 }

/-- The state left by the failing source-function `set` below: timer 0 is
gone and a fresh timer 1 is left armed. -/
def c2AfterSrcFail : Store :=
  { cache := c2Store.cache, armed := [1], nextTimer := 2 }

/-- C2 counterexample: a `set` call on an existing key that fails its
negative-`ttl` validation nevertheless cancels the existing entry’s armed
expiry timer, because the `clearTimeout` on the previous entry runs before
the `ttl` check — the observable state after the failed call differs from
the state before it.  A failing `set` whose source function throws
additionally leaves a freshly armed timer behind. -/
theorem set_failure_mutates_timer_state :
    setOp c1Env 5 c2Store "k" (some "w") (some (-1)) none none
        = .error (.negativeTtl, c2AfterNegTtl)
    ∧ c2AfterNegTtl ≠ c2Store
    ∧ setOp failEnv 5 c2Store "k" none (some 50) none (some 3)
        = .error (.sourceFnFailure "k", c2AfterSrcFail)
    ∧ c2AfterSrcFail ≠ c2Store := by
  refine ⟨by decide, by decide, by decide, by decide⟩

/-- C2 amended: every failing `set` call — any validation error as well as a
`SourceFunctionError` from the initial source-function invocation — leaves
the entry map unchanged (no entry written or modified), although timer
state may change. -/
theorem set_failure_leaves_cache_unchanged
    (env : Nat → Except Unit String) (now : Nat) (s : Store) (key : String)
    (value : Option String) (ttl : Option Int) (autoRefetch : Option Bool)
    (sourceFn : Option Nat) (err : CacheError) (s' : Store)
    (h : setOp env now s key value ttl autoRefetch sourceFn
           = .error (err, s')) :
    s'.cache = s.cache := by
  unfold setOp at h
  repeat' split at h
  all_goals (try exact Except.noConfusion h)
  all_goals
    (injection h with h1
     injection h1 with h2 h3
     rw [← h3])

/-- C2 amended, witness: the failing negative-`ttl` call from the
counterexample state leaves the entry map unchanged. -/
theorem set_failure_leaves_cache_unchanged_witness :
    setOp c1Env 5 c2Store "k" (some "w") (some (-1)) none none
        = .error (.negativeTtl, c2AfterNegTtl)
    ∧ c2AfterNegTtl.cache = c2Store.cache :=
  ⟨by decide,
   set_failure_leaves_cache_unchanged c1Env 5 c2Store "k" (some "w")
     (some (-1)) none none .negativeTtl c2AfterNegTtl (by decide)⟩

/-! ## Claim C3: round-trip of a literal value through `set` and `get` -/

/-- The store after `set(\x7bkey:"k", value:"v"\x7d)` on the empty store at
time 0: the stored payload is the serialized form. -/
def c3Store : Store :=
  { cache := [("k",
      { value := "\"v\"", createAt := 0, updateAt := 0, ttl := none,
        autoRefetch := none, fetching := .absent, sourceFn := none,
        timeout := none })],
    armed := [], nextTimer := 0 }

/-- C3 counterexample: `set(\x7bkey:"k", value:"v"\x7d)` followed by
`get("k")` does not return the string `"v"` — it returns
`JSON.stringify("v")`, i.e. the three-character string `"v"` wrapped in
quote characters, because `set` stores `JSON.stringify(value)` and `get`
returns the stored payload without parsing it back. -/
theorem set_get_round_trip_returns_serialized_not_raw :
    setOp c1Env 0 emptyStore "k" (some "v") none none none
        = .ok (c3Store, true)
    ∧ getOp c1Env 0 c3Store "k" = .ok (some "\"v\"", c3Store, [])
    ∧ ¬(("\"v\"" : String) = "v") := by
  refine ⟨by decide, by decide, by decide⟩

/-- C3 amended: for every non-empty key and non-empty value, `set` with the
literal value and no TTL followed by `get` of the same key returns the
JSON-serialized form `JSON.stringify(v)` of the value (round-trip stable
under the serialization, but not the raw string `v`). -/
theorem set_get_round_trip_serialized (env : Nat → Except Unit String)
    (now now' : Nat) (s : Store) (k v : String) (hk : ¬(k.length = 0))
    (hv : ¬(v = "")) :
    ∃ s', setOp env now s k (some v) none none none = .ok (s', true)
      ∧ getOp env now' s' k = .ok (some (jsonStringify v), s', []) := by
  unfold setOp
  rw [if_neg hk]
  rw [if_neg (by simp [hv] :
    ¬((none : Option Nat) = none ∧
      (some v = none ∨ some v = some "")))]
  rw [if_neg (by simp :
    ¬((none : Option Bool) = some true ∧
      ((none : Option Int) = none ∨ (none : Option Int) = some 0)))]
  refine ⟨_, rfl, ?_⟩
  unfold getOp
  rw [if_neg hk]
  rw [mapGet_mapSet_self]
  rfl

/-- C3 amended, witness. -/
theorem set_get_round_trip_serialized_witness :
    ∃ s', setOp c1Env 0 emptyStore "k" (some "v") none none none
            = .ok (s', true)
      ∧ getOp c1Env 0 s' "k" = .ok (some (jsonStringify "v"), s', []) :=
  set_get_round_trip_serialized c1Env 0 0 emptyStore "k" "v" (by decide)
    (by decide)

/-! ## Claim C4: `createdAt` / `updatedAt` behaviour -/

theorem refetchStart_done_inv (s : Store) (key : String) (b : Bool)
    (s' : Store) (h : refetchStart s key = .done b s') :
    b = false ∧ s' = s := by
  unfold refetchStart at h
  repeat' split at h
  all_goals
    first
      | exact StartResult.noConfusion h
      | (injection h with h1 h2; exact ⟨h1.symm, h2.symm⟩)

theorem refetchStart_started_inv (s : Store) (key : String) (f : Nat)
    (cached : CacheState) (s' : Store)
    (h : refetchStart s key = .started f cached s') :
    mapGet s.cache key = some cached ∧ cached.sourceFn = some f
    ∧ ¬(cached.fetching = .isTrue)
    ∧ s' = { s with
             cache := mapSet s.cache key
               ({ cached with
                  fetching := spreadFetch .isTrue cached.fetching }) } := by
  unfold refetchStart at h
  repeat' split at h
  all_goals (try exact StartResult.noConfusion h)
  injection h with h1 h2 h3
  subst h1
  subst h2
  exact ⟨by assumption, by assumption, by assumption, h3.symm⟩

/-- The store after `set(\x7bkey:"k", value:"v1"\x7d)` at time 0. -/
def c4Store1 : Store :=
  { cache := [("k",
      { value := "\"v1\"", createAt := 0, updateAt := 0, ttl := none,
        autoRefetch := none, fetching := .absent, sourceFn := none,
        timeout := none })],
    armed := [], nextTimer := 0 }

/-- The store after overwriting `"k"` with `value:"v2"` at time 5: both
timestamps are reset to 5. -/
def c4Store2 : Store :=
  { cache := [("k",
      { value := "\"v2\"", createAt := 5, updateAt := 5, ttl := none,
        autoRefetch := none, fetching := .absent, sourceFn := none,
        timeout := none })],
    armed := [], nextTimer := 0 }

/-- C4 counterexample: overwriting an existing key with a second `set` call
does not leave `createdAt` unchanged — `set` writes
`createAt: time, updateAt: time` with the current time unconditionally, so
the second call at time 5 resets `createdAt` from 0 to 5. -/
theorem set_overwrite_resets_createAt :
    setOp c1Env 0 emptyStore "k" (some "v1") none none none
        = .ok (c4Store1, true)
    ∧ setOp c1Env 5 c4Store1 "k" (some "v2") none none none
        = .ok (c4Store2, true)
    ∧ (mapGet c4Store1.cache "k").map CacheState.createAt = some 0
    ∧ (mapGet c4Store2.cache "k").map CacheState.createAt = some 5
    ∧ ¬((5 : Nat) = 0) := by
  refine ⟨by decide, by decide, by decide, by decide, by decide⟩

/-- C4 amended: `updatedAt` is set to the operation time by every
successful write and by every successful refetch, and a successful refetch
preserves `createdAt`; but every successful `set` — including an overwrite
of an existing key — assigns the current time to both `createdAt` and
`updatedAt`, so `createdAt` is not fixed at first insertion. -/
theorem set_resets_both_timestamps_refetch_preserves_createAt :
    (∀ (env : Nat → Except Unit String) (now : Nat) (s : Store)
       (key : String) (value : Option String) (ttl : Option Int)
       (autoRefetch : Option Bool) (sourceFn : Option Nat) (s' : Store)
       (b : Bool),
       setOp env now s key value ttl autoRefetch sourceFn = .ok (s', b) →
       ∃ e, mapGet s'.cache key = some e ∧ e.createAt = now
         ∧ e.updateAt = now)
    ∧ (∀ (env : Nat → Except Unit String) (now : Nat) (s : Store)
         (key : String) (s' : Store) (tr : List (String × EventParam)),
         refetchOp env now s key = .ok (true, s', tr) →
         ∃ c e, mapGet s.cache key = some c
           ∧ mapGet s'.cache key = some e
           ∧ e.createAt = c.createAt ∧ e.updateAt = now) := by
  constructor
  · intro env now s key value ttl autoRefetch sourceFn s' b h
    unfold setOp at h
    repeat' split at h
    all_goals (try exact Except.noConfusion h)
    all_goals
      (injection h with h1
       injection h1 with h2 h3
       rw [← h2]
       exact ⟨_, mapGet_mapSet_self _ _ _, rfl, rfl⟩)
  · intro env now s key s' tr h
    unfold refetchOp at h
    split at h
    · rename_i b s1 hdone
      obtain ⟨hb, -⟩ := refetchStart_done_inv _ _ _ _ hdone
      subst hb
      injection h with h1
      injection h1 with hb2
      exact absurd hb2 (by decide)
    · rename_i f cached s1 hstart
      obtain ⟨hget, hsrc, hfetch, hs1⟩ :=
        refetchStart_started_inv _ _ _ _ _ hstart
      split at h
      · rename_i v henv
        simp only [refetchFinishSuccess, Except.ok.injEq,
          Prod.mk.injEq] at h
        obtain ⟨-, hs', -⟩ := h
        refine ⟨cached,
          { value := jsonStringify v, createAt := cached.createAt,
            updateAt := now, ttl := cached.ttl, autoRefetch := none,
            fetching := spreadFetch .undef .absent,
            sourceFn := cached.sourceFn, timeout := none },
          hget, ?_, rfl, rfl⟩
        rw [← hs']
        exact mapGet_mapSet_self _ _ _
      · exact Except.noConfusion h

/-- C4 amended, witness: the overwrite at time 5 stamps both timestamps
with 5, and the refetch at time 1 preserves `createdAt = 0` while setting
`updatedAt = 1`. -/
theorem set_resets_both_timestamps_witness :
    (∃ e, mapGet c4Store2.cache "k" = some e ∧ e.createAt = 5
       ∧ e.updateAt = 5)
    ∧ (∃ c e, mapGet c1SetStore.cache "k" = some c
         ∧ mapGet c1Store.cache "k" = some e
         ∧ e.createAt = c.createAt ∧ e.updateAt = 1) :=
  ⟨set_resets_both_timestamps_refetch_preserves_createAt.1 c1Env 5 c4Store1
     "k" (some "v2") none none none c4Store2 true (by decide),
   set_resets_both_timestamps_refetch_preserves_createAt.2 c1Env 1
     c1SetStore "k" c1Store
     (emitEvent "refetch"
       { key := "k", value := "\"v\"", ttl := none, createAt := 0,
         updateAt := 1 }) (by decide)⟩

/-! ## Claim C5: expiry semantics of `ttl` -/

/-- An entry written with `ttl: 0` at time 0. -/
def c5Entry : CacheState :=
  { value := "\"v\"", createAt := 0, updateAt := 0, ttl := some 0,
    autoRefetch := none, fetching := .absent, sourceFn := none,
    timeout := some 0 }

/-- A store holding the zero-`ttl` entry. -/
def c5Store : Store :=
  { cache := [("k", c5Entry)], armed := [0], nextTimer := 1 }

/-- C5 counterexample: an entry with `ttl: 0` is never treated as expired,
although wall-clock time 1 exceeds `updatedAt + ttl = 0`: `isExpired` reads
`if (!cache.ttl) return false`, and `0` is falsy, so `has` still returns
true at time 1 — the claim requires it to be treated as absent. -/
theorem zero_ttl_entry_never_expires :
    hasOp 1 c5Store "k" = (true, c5Store, [])
    ∧ isExpired c5Entry 1 = false
    ∧ c5Entry.updateAt + 0 < 1 := by
  refine ⟨by decide, by decide, by decide⟩

/-- C5 amended: an entry is detected as expired exactly when it has a
strictly positive `ttl` and the current time exceeds `updatedAt + ttl`; an
entry without a `ttl`, or with `ttl = 0` (falsy, treated like absence), is
never treated as expired.  On a present entry `has` returns exactly the
negation of that detection, and `get` returns the stored value whenever the
entry is not detected as expired. -/
theorem expiry_exactly_when_positive_ttl_exceeded :
    (∀ (c : CacheState) (now : Nat),
       isExpired c now = true ↔
         ∃ t, c.ttl = some t ∧ ¬(t = 0) ∧ c.updateAt + t < now)
    ∧ (∀ (now : Nat) (s : Store) (k : String) (c : CacheState),
         mapGet s.cache k = some c →
         (hasOp now s k).1 = !(isExpired c now))
    ∧ (∀ (env : Nat → Except Unit String) (now : Nat) (s : Store)
         (k : String) (c : CacheState),
         ¬(k.length = 0) → mapGet s.cache k = some c →
         isExpired c now = false →
         getOp env now s k = .ok (some c.value, s, [])) := by
  refine ⟨?_, ?_, ?_⟩
  · intro c now
    unfold isExpired
    cases hc : c.ttl with
    | none => simp
    | some t =>
        by_cases ht : t = 0
        · subst ht; simp
        · simp [ht, Nat.lt_iff_add_one_le]
  · intro now s k c hmem
    unfold hasOp
    rw [hmem]
    by_cases hexp : isExpired c now <;> simp [hexp]
  · intro env now s k c hk hmem hexp
    unfold getOp
    rw [if_neg hk, hmem]
    simp [hexp]

/-- C5 amended, witness: at time 1 the zero-`ttl` entry is not expired,
`has` reports it present, and `get` returns its stored value. -/
theorem expiry_exactly_when_positive_ttl_exceeded_witness :
    ((hasOp 1 c5Store "k").1 = !(isExpired c5Entry 1))
    ∧ getOp c1Env 1 c5Store "k" = .ok (some "\"v\"", c5Store, []) :=
  ⟨expiry_exactly_when_positive_ttl_exceeded.2.1 1 c5Store "k" c5Entry
     (by decide),
   expiry_exactly_when_positive_ttl_exceeded.2.2 c1Env 1 c5Store "k"
     c5Entry (by decide) (by decide) (by decide)⟩

/-! ## Claim C6: failed `refetch` restores the entry and notifies -/

/-- C6: when the source-function invocation inside `refetch` fails, the
entry keeps its prior value, timestamps, `ttl`, `sourceFn`, `autoRefetch`
and `timeout` (the catch block writes back the entry read at call entry),
with the `fetching` flag cleared (left as a falsy own `undefined`
property), before the call re-raises; the refetch-failure event is emitted
on the global and the key-scoped channel carrying the prior payload; and
the call raises a `SourceFunctionError` naming the key. -/
theorem refetch_failure_restores_entry_and_notifies
    (env : Nat → Except Unit String) (now : Nat) (s : Store) (key : String)
    (c : CacheState) (f : Nat) (hmem : mapGet s.cache key = some c)
    (hsrc : c.sourceFn = some f) (hfetch : ¬(c.fetching = .isTrue))
    (henv : env f = .error ()) :
    ∃ s', refetchOp env now s key
            = .error (.sourceFnFailure key, s',
                emitEvent "refetch-failure"
                  { key := key, value := c.value, ttl := c.ttl,
                    createAt := c.createAt, updateAt := c.updateAt })
      ∧ mapGet s'.cache key = some ({ c with fetching := .undef })
      ∧ s'.armed = s.armed := by
  have hstart : refetchStart s key = .started f c
      ({ s with
         cache := mapSet s.cache key
           ({ c with fetching := spreadFetch .isTrue c.fetching }) }) := by
    simp only [refetchStart, hmem, hsrc, if_neg hfetch]
  have hfu : spreadFetch .undef c.fetching = .undef := by
    cases hc : c.fetching with
    | absent => rfl
    | undef => rfl
    | isTrue => exact absurd hc hfetch
  simp only [refetchOp, hstart, henv, refetchFinishFailure]
  refine ⟨_, rfl, ?_, rfl⟩
  rw [hfu]
  exact mapGet_mapSet_self _ _ _

/-- C6 witness: a failing refetch on the freshly set entry of `c1SetStore`
restores it with the flag cleared and emits the failure events. -/
theorem refetch_failure_restores_entry_witness :
    ∃ s', refetchOp failEnv 9 c1SetStore "k"
            = .error (.sourceFnFailure "k", s',
                emitEvent "refetch-failure"
                  { key := "k", value := "\"v\"", ttl := none,
                    createAt := 0, updateAt := 0 })
      ∧ mapGet s'.cache "k"
          = some { value := "\"v\"", createAt := 0, updateAt := 0,
                   ttl := none, autoRefetch := none, fetching := .undef,
                   sourceFn := some 0, timeout := none }
      ∧ s'.armed = c1SetStore.armed :=
  refetch_failure_restores_entry_and_notifies failEnv 9 c1SetStore "k"
    { value := "\"v\"", createAt := 0, updateAt := 0, ttl := none,
      autoRefetch := none, fetching := .absent, sourceFn := some 0,
      timeout := none } 0 (by decide) (by decide) (by decide) (by decide)

/-! ## Claim C7: the soft-failure returns of `refetch` -/

/-- C7: `refetch(key)` returns false immediately — same store, no events,
no raise, and independently of the producer environment (hence without
invoking any source function) — when the key is unknown, when the entry
has no `sourceFn`, and when the entry's `fetching` flag is already
true. -/
theorem refetch_returns_false_on_soft_failures
    (now : Nat) (s : Store) (key : String) :
    (mapGet s.cache key = none →
      ∀ env, refetchOp env now s key = .ok (false, s, []))
    ∧ (∀ c, mapGet s.cache key = some c → c.sourceFn = none →
        ∀ env, refetchOp env now s key = .ok (false, s, []))
    ∧ (∀ c, mapGet s.cache key = some c → c.fetching = .isTrue →
        ∀ env, refetchOp env now s key = .ok (false, s, [])) := by
  refine ⟨?_, ?_, ?_⟩
  · intro hmem env
    simp only [refetchOp, refetchStart, hmem]
  · intro c hmem hsrc env
    simp only [refetchOp, refetchStart, hmem, hsrc]
  · intro c hmem hfetch env
    cases hc : c.sourceFn with
    | none => simp only [refetchOp, refetchStart, hmem, hc]
    | some f => simp only [refetchOp, refetchStart, hmem, hc, hfetch,
        if_pos]

/-- C7 witness: the three soft-failure cases at concrete stores. -/
theorem refetch_returns_false_on_soft_failures_witness :
    refetchOp c1Env 0 emptyStore "missing" = .ok (false, emptyStore, [])
    ∧ refetchOp c1Env 0 c3Store "k" = .ok (false, c3Store, [])
    ∧ (∀ env, refetchOp env 0
        { cache := [("k",
            { value := "\"v\"", createAt := 0, updateAt := 0, ttl := none,
              autoRefetch := none, fetching := .isTrue, sourceFn := some 0,
              timeout := none })],
          armed := [], nextTimer := 0 } "k"
        = .ok (false,
            { cache := [("k",
                { value := "\"v\"", createAt := 0, updateAt := 0,
                  ttl := none, autoRefetch := none, fetching := .isTrue,
                  sourceFn := some 0, timeout := none })],
              armed := [], nextTimer := 0 }, [])) :=
  ⟨(refetch_returns_false_on_soft_failures 0 emptyStore "missing").1
     (by decide) c1Env,
   (refetch_returns_false_on_soft_failures 0 c3Store "k").2.1
     { value := "\"v\"", createAt := 0, updateAt := 0, ttl := none,
       autoRefetch := none, fetching := .absent, sourceFn := none,
       timeout := none } (by decide) (by decide) c1Env,
   fun env =>
     (refetch_returns_false_on_soft_failures 0 _ "k").2.2
       { value := "\"v\"", createAt := 0, updateAt := 0, ttl := none,
         autoRefetch := none, fetching := .isTrue, sourceFn := some 0,
         timeout := none } (by decide) (by decide) env⟩

/-! ## Claim C8: `has` on an expired entry -/

/-- The emissions of an operation, whether it returned or raised. -/
def exceptTrace {α : Type}
    (r : Except (CacheError × Store × List (String × EventParam))
           (α × Store × List (String × EventParam))) :
    List (String × EventParam) :=
  match r with
  | .ok (_, _, t) => t
  | .error (_, _, t) => t

/-- C8: on an entry detected as expired, `has` emits exactly the expire
events (global and key-scoped) with the entry's payload — the same events
`get` begins with on the same state — returns false, and leaves the store
untouched: the stale entry is neither deleted nor refetched, so it is
still present afterwards for a later `get` or `refetch` to resolve. -/
theorem has_expired_reports_without_mutating
    (now : Nat) (s : Store) (key : String) (c : CacheState)
    (hk : ¬(key.length = 0)) (hmem : mapGet s.cache key = some c)
    (hexp : isExpired c now = true) :
    hasOp now s key
      = (false, s,
         emitEvent "expire"
           { key := key, value := c.value, ttl := c.ttl,
             createAt := c.createAt, updateAt := c.updateAt })
    ∧ mapGet s.cache key = some c
    ∧ (∀ env, ∃ rest,
         exceptTrace (getOp env now s key)
           = emitEvent "expire"
               { key := key, value := c.value, ttl := c.ttl,
                 createAt := c.createAt, updateAt := c.updateAt }
             ++ rest) := by
  refine ⟨?_, hmem, ?_⟩
  · simp only [hasOp, hmem, hexp, if_pos]
  · intro env
    simp only [getOp, if_neg hk, hmem]
    rw [hexp, if_neg (by decide : ¬(true = false))]
    by_cases hbr : c.sourceFn = none ∨ ¬(c.autoRefetch = some true)
    · refine ⟨[], ?_⟩
      simp [exceptTrace, if_pos hbr]
    · simp only [if_neg hbr]
      cases hro : refetchOp env now s key with
      | ok r =>
          obtain ⟨b, s', tr⟩ := r
          exact ⟨tr, by simp [exceptTrace, hro]⟩
      | error r =>
          obtain ⟨e, s', tr⟩ := r
          exact ⟨tr, by simp [exceptTrace, hro]⟩

/-- A store whose single entry (ttl 5, written at time 0) is expired at
time 6. -/
def c8Store : Store :=
  { cache := [("k",
      { value := "\"v\"", createAt := 0, updateAt := 0, ttl := some 5,
        autoRefetch := none, fetching := .absent, sourceFn := none,
        timeout := some 0 })],
    armed := [0], nextTimer := 1 }

/-- C8 witness: at time 6 `has` on the expired entry emits the expire
events, returns false and leaves the store unchanged. -/
theorem has_expired_reports_without_mutating_witness :
    hasOp 6 c8Store "k"
      = (false, c8Store,
         emitEvent "expire"
           { key := "k", value := "\"v\"", ttl := some 5, createAt := 0,
             updateAt := 0 })
    ∧ mapGet c8Store.cache "k"
        = some { value := "\"v\"", createAt := 0, updateAt := 0,
                 ttl := some 5, autoRefetch := none, fetching := .absent,
                 sourceFn := none, timeout := some 0 }
    ∧ (∀ env, ∃ rest,
         exceptTrace (getOp env 6 c8Store "k")
           = emitEvent "expire"
               { key := "k", value := "\"v\"", ttl := some 5,
                 createAt := 0, updateAt := 0 } ++ rest) :=
  has_expired_reports_without_mutating 6 c8Store "k"
    { value := "\"v\"", createAt := 0, updateAt := 0, ttl := some 5,
      autoRefetch := none, fetching := .absent, sourceFn := none,
      timeout := some 0 } (by decide) (by decide) (by decide)

/-! ## Claim C9: are event handlers awaited? -/

/-- An emitter with one listener (id 7) on the global expire channel. -/
def c9Emitter : Emitter := [("expire", 7)]

/-- A listener environment in which every handler is asynchronous (has
work remaining after its first suspension point). -/
def c9AllAsync : Nat → Bool := fun _ => true

/-- C9 counterexample: with one asynchronous handler subscribed to the
global expire channel, `has` on an expired entry invokes the handler
synchronously but returns while the handler's asynchronous tail is still
pending (`[7] ≠ []`): `emitter.emit` ignores the promises returned by
handlers, so the emitting operation does not await their completion. -/
theorem has_returns_with_async_handler_pending :
    hasRun c9Emitter c9AllAsync 6 c8Store "k"
      = (false, c8Store, [7], [7])
    ∧ ¬(([7] : List Nat) = []) := by
  refine ⟨by decide, by decide⟩

/-- The handler ids one `emitEvent` call invokes synchronously: the global
channel’s listeners followed by the key-scoped channel’s, each in
registration order. -/
def syncObserved (em : Emitter) (event key : String) : List Nat :=
  emitterMatched em event ++ emitterMatched em (event ++ "-" ++ key)

/-- The asynchronous handler tails one `emitEvent` call leaves pending:
the engine ignores the promises the handlers return and never awaits
them. -/
def pendingObserved (em : Emitter) (lenv : Nat → Bool) (event key : String) :
    List Nat :=
  (emitterMatched em event).filter lenv
    ++ (emitterMatched em (event ++ "-" ++ key)).filter lenv

/-- `RunCache.refetch` together with the listener dispatch of its
emissions: outcome, store, and the pair of (synchronously invoked, still
pending) handler ids as they stand when the call returns or raises. -/
def refetchRun (em : Emitter) (lenv : Nat → Bool)
    (env : Nat → Except Unit String) (now : Nat) (s : Store) (key : String) :
    Except (CacheError × Store × (List Nat × List Nat))
      (Bool × Store × (List Nat × List Nat)) :=
  match refetchOp env now s key with
  | .ok (b, s', tr) => .ok (b, s', dispatchAll em lenv tr)
  | .error (e, s', tr) => .error (e, s', dispatchAll em lenv tr)

/-- `RunCache.get` together with the listener dispatch of its emissions. -/
def getRun (em : Emitter) (lenv : Nat → Bool)
    (env : Nat → Except Unit String) (now : Nat) (s : Store) (key : String) :
    Except (CacheError × Store × (List Nat × List Nat))
      (Option String × Store × (List Nat × List Nat)) :=
  match getOp env now s key with
  | .ok (v, s', tr) => .ok (v, s', dispatchAll em lenv tr)
  | .error (e, s', tr) => .error (e, s', dispatchAll em lenv tr)

theorem dispatchAll_acc (em : Emitter) (lenv : Nat → Bool)
    (tr : List (String × EventParam)) :
    ∀ acc : List Nat × List Nat,
      tr.foldl
        (fun acc e =>
          let d := dispatchEvent em lenv e
          (acc.1 ++ d.1, acc.2 ++ d.2)) acc
        = (acc.1 ++ (dispatchAll em lenv tr).1,
           acc.2 ++ (dispatchAll em lenv tr).2) := by
  induction tr with
  | nil => intro acc; simp [dispatchAll]
  | cons e rest ih =>
      intro acc
      have hstep : dispatchAll em lenv (e :: rest)
          = ((dispatchEvent em lenv e).1 ++ (dispatchAll em lenv rest).1,
             (dispatchEvent em lenv e).2 ++ (dispatchAll em lenv rest).2) := by
        show List.foldl _ _ (e :: rest) = _
        rw [List.foldl_cons, ih]
        simp
      rw [List.foldl_cons, ih, hstep]
      simp [List.append_assoc]

theorem dispatchAll_append (em : Emitter) (lenv : Nat → Bool)
    (t1 t2 : List (String × EventParam)) :
    dispatchAll em lenv (t1 ++ t2)
      = ((dispatchAll em lenv t1).1 ++ (dispatchAll em lenv t2).1,
         (dispatchAll em lenv t1).2 ++ (dispatchAll em lenv t2).2) := by
  show (t1 ++ t2).foldl _ ([], []) = _
  rw [List.foldl_append]
  exact dispatchAll_acc em lenv t2 _

/-- C9 amended: every event emission — the engine emits expire, refetch
and refetch-failure exclusively through `emitEvent`, including from the
timer callback — invokes the matching handlers synchronously and in
deterministic order (global channel first, then the key-scoped channel,
each in registration order), but never awaits them: exactly the
asynchronous handlers among those invoked are still pending when the
emitting operation proceeds.  Conjunct 1 states this for the emission
primitive itself (any event kind, any payload); the remaining conjuncts
follow each operation to its return or raise — `has` on an expired entry,
`refetch` raising after a producer failure (refetch-failure events
pending), `refetch` succeeding (refetch events pending), `get` deleting an
expired entry (expire events pending), and `get` auto-refetching an
expired entry (expire then refetch events pending, in emission order). -/
theorem emissions_sync_in_order_never_awaited :
    (∀ (em : Emitter) (lenv : Nat → Bool) (event : String) (p : EventParam),
       dispatchAll em lenv (emitEvent event p)
         = (syncObserved em event p.key, pendingObserved em lenv event p.key))
    ∧ (∀ (em : Emitter) (lenv : Nat → Bool) (now : Nat) (s : Store)
         (key : String) (c : CacheState),
         mapGet s.cache key = some c → isExpired c now = true →
         hasRun em lenv now s key
           = (false, s,
              syncObserved em "expire" key,
              pendingObserved em lenv "expire" key))
    ∧ (∀ (em : Emitter) (lenv : Nat → Bool) (env : Nat → Except Unit String)
         (now : Nat) (s : Store) (key : String) (c : CacheState) (f : Nat),
         mapGet s.cache key = some c → c.sourceFn = some f →
         ¬(c.fetching = .isTrue) → env f = .error () →
         ∃ s', refetchRun em lenv env now s key
                 = .error (.sourceFnFailure key, s',
                     syncObserved em "refetch-failure" key,
                     pendingObserved em lenv "refetch-failure" key))
    ∧ (∀ (em : Emitter) (lenv : Nat → Bool) (env : Nat → Except Unit String)
         (now : Nat) (s : Store) (key : String) (c : CacheState) (f : Nat)
         (v : String),
         mapGet s.cache key = some c → c.sourceFn = some f →
         ¬(c.fetching = .isTrue) → env f = .ok v →
         ∃ s', refetchRun em lenv env now s key
                 = .ok (true, s',
                     syncObserved em "refetch" key,
                     pendingObserved em lenv "refetch" key))
    ∧ (∀ (em : Emitter) (lenv : Nat → Bool) (env : Nat → Except Unit String)
         (now : Nat) (s : Store) (key : String) (c : CacheState),
         ¬(key.length = 0) → mapGet s.cache key = some c →
         isExpired c now = true →
         (c.sourceFn = none ∨ ¬(c.autoRefetch = some true)) →
         getRun em lenv env now s key
           = .ok (none,
               { s with cache := mapDelete s.cache key },
               syncObserved em "expire" key,
               pendingObserved em lenv "expire" key))
    ∧ (∀ (em : Emitter) (lenv : Nat → Bool) (env : Nat → Except Unit String)
         (now : Nat) (s : Store) (key : String) (c : CacheState) (f : Nat)
         (v : String),
         ¬(key.length = 0) → mapGet s.cache key = some c →
         isExpired c now = true → c.sourceFn = some f →
         c.autoRefetch = some true → ¬(c.fetching = .isTrue) →
         env f = .ok v →
         ∃ s', getRun em lenv env now s key
                 = .ok (some (jsonStringify v), s',
                     syncObserved em "expire" key
                       ++ syncObserved em "refetch" key,
                     pendingObserved em lenv "expire" key
                       ++ pendingObserved em lenv "refetch" key)) := by
  refine ⟨?_, ?_, ?_, ?_, ?_, ?_⟩
  · intro em lenv event p
    simp [dispatchAll, dispatchEvent, emitEvent, syncObserved,
      pendingObserved]
  · intro em lenv now s key c hmem hexp
    unfold hasRun
    simp only [hasOp, hmem, hexp, if_pos]
    simp [dispatchAll, dispatchEvent, emitEvent, syncObserved,
      pendingObserved]
  · intro em lenv env now s key c f hmem hsrc hfetch henv
    have hstart : refetchStart s key = .started f c
        ({ s with
           cache := mapSet s.cache key
             ({ c with fetching := spreadFetch .isTrue c.fetching }) }) := by
      simp only [refetchStart, hmem, hsrc, if_neg hfetch]
    refine ⟨{ s with
              cache := mapSet
                (mapSet s.cache key
                  ({ c with fetching := spreadFetch .isTrue c.fetching }))
                key
                ({ c with fetching := spreadFetch .undef c.fetching }) },
            ?_⟩
    simp only [refetchRun, refetchOp, hstart, henv, refetchFinishFailure]
    simp [dispatchAll, dispatchEvent, emitEvent, syncObserved,
      pendingObserved]
  · intro em lenv env now s key c f v hmem hsrc hfetch henv
    have hstart : refetchStart s key = .started f c
        ({ s with
           cache := mapSet s.cache key
             ({ c with fetching := spreadFetch .isTrue c.fetching }) }) := by
      simp only [refetchStart, hmem, hsrc, if_neg hfetch]
    refine ⟨{ s with
              cache := mapSet
                (mapSet s.cache key
                  ({ c with fetching := spreadFetch .isTrue c.fetching }))
                key
                { value := jsonStringify v, createAt := c.createAt,
                  updateAt := now, ttl := c.ttl, autoRefetch := none,
                  fetching := spreadFetch .undef .absent,
                  sourceFn := c.sourceFn, timeout := none } },
            ?_⟩
    simp only [refetchRun, refetchOp, hstart, henv, refetchFinishSuccess]
    simp [dispatchAll, dispatchEvent, emitEvent, syncObserved,
      pendingObserved]
  · intro em lenv env now s key c hk hmem hexp hbr
    simp only [getRun, getOp, if_neg hk, hmem]
    rw [hexp, if_neg (by decide : ¬(true = false))]
    rw [if_pos hbr]
    simp [dispatchAll, dispatchEvent, emitEvent, syncObserved,
      pendingObserved]
  · intro em lenv env now s key c f v hk hmem hexp hsrc har hfetch henv
    have hstart : refetchStart s key = .started f c
        ({ s with
           cache := mapSet s.cache key
             ({ c with fetching := spreadFetch .isTrue c.fetching }) }) := by
      simp only [refetchStart, hmem, hsrc, if_neg hfetch]
    have hro : refetchOp env now s key
        = .ok (true,
            { s with
              cache := mapSet
                (mapSet s.cache key
                  ({ c with fetching := spreadFetch .isTrue c.fetching }))
                key
                { value := jsonStringify v, createAt := c.createAt,
                  updateAt := now, ttl := c.ttl, autoRefetch := none,
                  fetching := spreadFetch .undef .absent,
                  sourceFn := c.sourceFn, timeout := none } },
            emitEvent "refetch"
              { key := key, value := jsonStringify v, ttl := c.ttl,
                createAt := c.createAt, updateAt := now }) := by
      simp only [refetchOp, hstart, henv, refetchFinishSuccess]
    have hbr : ¬(c.sourceFn = none ∨ ¬(c.autoRefetch = some true)) := by
      simp [hsrc, har]
    refine ⟨{ s with
              cache := mapSet
                (mapSet s.cache key
                  ({ c with fetching := spreadFetch .isTrue c.fetching }))
                key
                { value := jsonStringify v, createAt := c.createAt,
                  updateAt := now, ttl := c.ttl, autoRefetch := none,
                  fetching := spreadFetch .undef .absent,
                  sourceFn := c.sourceFn, timeout := none } },
            ?_⟩
    simp only [getRun, getOp, if_neg hk, hmem]
    rw [hexp, if_neg (by decide : ¬(true = false))]
    rw [if_neg hbr, hro]
    simp only [mapGet_mapSet_self, Option.map_some]
    simp only [dispatchAll_append]
    simp [dispatchAll, dispatchEvent, emitEvent, syncObserved,
      pendingObserved]

/-- An emitter carrying listeners on every channel the engine emits on for
key `"k"`: global and key-scoped expire, refetch and refetch-failure. -/
def c9FullEmitter : Emitter :=
  [("expire", 20), ("expire-k", 21), ("refetch", 22), ("refetch-k", 23),
   ("refetch-failure", 24), ("refetch-failure-k", 25)]

/-- A store whose entry for `"k"` is expired at time 6 and carries a
source function with auto-refetch enabled. -/
def c9AutoStore : Store :=
  { cache := [("k",
      { value := "\"v\"", createAt := 0, updateAt := 0, ttl := some 5,
        autoRefetch := some true, fetching := .absent, sourceFn := some 0,
        timeout := some 0 })],
    armed := [0], nextTimer := 1 }

/-- C9 amended, witness: each emission path at a concrete input — the
emission primitive, `has` on the expired `c8Store` entry, a failing and a
succeeding `refetch` on `c1SetStore`, `get` deleting the expired
`c8Store` entry, and `get` auto-refetching the expired `c9AutoStore`
entry. -/
theorem emissions_sync_in_order_never_awaited_witness :
    dispatchAll c9FullEmitter c9AllAsync
        (emitEvent "expire"
          { key := "k", value := "\"v\"", ttl := some 5, createAt := 0,
            updateAt := 0 })
      = (syncObserved c9FullEmitter "expire" "k",
         pendingObserved c9FullEmitter c9AllAsync "expire" "k")
    ∧ hasRun c9FullEmitter c9AllAsync 6 c8Store "k"
        = (false, c8Store,
           syncObserved c9FullEmitter "expire" "k",
           pendingObserved c9FullEmitter c9AllAsync "expire" "k")
    ∧ (∃ s', refetchRun c9FullEmitter c9AllAsync failEnv 9 c1SetStore "k"
               = .error (.sourceFnFailure "k", s',
                   syncObserved c9FullEmitter "refetch-failure" "k",
                   pendingObserved c9FullEmitter c9AllAsync
                     "refetch-failure" "k"))
    ∧ (∃ s', refetchRun c9FullEmitter c9AllAsync c1Env 9 c1SetStore "k"
               = .ok (true, s',
                   syncObserved c9FullEmitter "refetch" "k",
                   pendingObserved c9FullEmitter c9AllAsync "refetch" "k"))
    ∧ getRun c9FullEmitter c9AllAsync c1Env 6 c8Store "k"
        = .ok (none,
            { c8Store with cache := mapDelete c8Store.cache "k" },
            syncObserved c9FullEmitter "expire" "k",
            pendingObserved c9FullEmitter c9AllAsync "expire" "k")
    ∧ (∃ s', getRun c9FullEmitter c9AllAsync c1Env 6 c9AutoStore "k"
               = .ok (some (jsonStringify "v"), s',
                   syncObserved c9FullEmitter "expire" "k"
                     ++ syncObserved c9FullEmitter "refetch" "k",
                   pendingObserved c9FullEmitter c9AllAsync "expire" "k"
                     ++ pendingObserved c9FullEmitter c9AllAsync
                         "refetch" "k")) :=
  ⟨emissions_sync_in_order_never_awaited.1 c9FullEmitter c9AllAsync "expire"
     { key := "k", value := "\"v\"", ttl := some 5, createAt := 0,
       updateAt := 0 },
   emissions_sync_in_order_never_awaited.2.1 c9FullEmitter c9AllAsync 6
     c8Store "k"
     { value := "\"v\"", createAt := 0, updateAt := 0, ttl := some 5,
       autoRefetch := none, fetching := .absent, sourceFn := none,
       timeout := some 0 } (by decide) (by decide),
   emissions_sync_in_order_never_awaited.2.2.1 c9FullEmitter c9AllAsync
     failEnv 9 c1SetStore "k"
     { value := "\"v\"", createAt := 0, updateAt := 0, ttl := none,
       autoRefetch := none, fetching := .absent, sourceFn := some 0,
       timeout := none } 0 (by decide) (by decide) (by decide) (by decide),
   emissions_sync_in_order_never_awaited.2.2.2.1 c9FullEmitter c9AllAsync
     c1Env 9 c1SetStore "k"
     { value := "\"v\"", createAt := 0, updateAt := 0, ttl := none,
       autoRefetch := none, fetching := .absent, sourceFn := some 0,
       timeout := none } 0 "v" (by decide) (by decide) (by decide)
     (by decide),
   emissions_sync_in_order_never_awaited.2.2.2.2.1 c9FullEmitter c9AllAsync
     c1Env 6 c8Store "k"
     { value := "\"v\"", createAt := 0, updateAt := 0, ttl := some 5,
       autoRefetch := none, fetching := .absent, sourceFn := none,
       timeout := some 0 } (by decide) (by decide) (by decide)
     (Or.inl (by decide)),
   emissions_sync_in_order_never_awaited.2.2.2.2.2 c9FullEmitter c9AllAsync
     c1Env 6 c9AutoStore "k"
     { value := "\"v\"", createAt := 0, updateAt := 0, ttl := some 5,
       autoRefetch := some true, fetching := .absent, sourceFn := some 0,
       timeout := some 0 } 0 "v" (by decide) (by decide) (by decide)
     (by decide) (by decide) (by decide) (by decide)⟩

/-! ## Claim C10: kind-scoped listener clearing matches by string prefix -/

theorem isPrefixOf_append_self (l1 l2 : List Char) :
    l1.isPrefixOf (l1 ++ l2) = true := by
  induction l1 with
  | nil => simp [List.isPrefixOf]
  | cons a as ih => simp [List.isPrefixOf, ih]

theorem strStartsWith_append_self (p rest : String) :
    strStartsWith (p ++ rest) p = true := by
  unfold strStartsWith
  rw [String.data_append]
  exact isPrefixOf_append_self _ _

/-- C10: clearing listeners with `event: "refetch"` and no key returns
true and removes every listener registered on any channel whose name
starts with `"refetch"` — in particular, besides the `"refetch"` channel
itself and its key-scoped channels, every `"refetch-failure"` listener
(global and key-scoped, for every key) is removed too, because the
kind-scoped loop matches registered channel names with `startsWith`. -/
theorem clear_refetch_also_clears_refetch_failure (em : Emitter) :
    ∃ em', clearEventListeners em (some (some "refetch", none))
             = .ok (true, em')
      ∧ (∀ p : String × Nat, p ∈ em' → strStartsWith p.1 "refetch" = false)
      ∧ (∀ n : Nat, ¬(("refetch-failure", n) ∈ em'))
      ∧ (∀ k : String, ∀ n : Nat,
           ¬(("refetch-failure-" ++ k, n) ∈ em')) := by
  refine ⟨_, rfl, ?_, ?_, ?_⟩
  case refine_1 =>
    intro p hp
    by_contra hws
    have hws' : strStartsWith p.1 "refetch" = true := by
      cases h : strStartsWith p.1 "refetch"
      · exact absurd h hws
      · rfl
    have hmem1 : p ∈ removeAllListenersOn em "refetch" :=
      mem_clearByKindLoop _ _ _ p hp
    have hname : p.1 ∈ eventNamesOf (removeAllListenersOn em "refetch") := by
      unfold eventNamesOf
      exact List.mem_dedup.mpr (List.mem_map_of_mem Prod.fst hmem1)
    exact clearByKindLoop_removes _ _ _ p.1 hname hws' p hp rfl
  case refine_2 =>
    intro n hmem
    have h1 := clearByKindLoop_removes
      (eventNamesOf (removeAllListenersOn em "refetch"))
      (removeAllListenersOn em "refetch") "refetch" "refetch-failure"
      (by
        have hm := mem_clearByKindLoop _ _ _ _ hmem
        exact List.mem_dedup.mpr (List.mem_map_of_mem Prod.fst hm))
      (by decide) ("refetch-failure", n) hmem
    exact h1 rfl
  case refine_3 =>
    intro k n hmem
    have h1 := clearByKindLoop_removes
      (eventNamesOf (removeAllListenersOn em "refetch"))
      (removeAllListenersOn em "refetch") "refetch" ("refetch-failure-" ++ k)
      (by
        have hm := mem_clearByKindLoop _ _ _ _ hmem
        exact List.mem_dedup.mpr (List.mem_map_of_mem Prod.fst hm))
      (by
        have hsplit : ("refetch-failure-" : String)
            = "refetch" ++ "-failure-" := by decide
        rw [hsplit, String.append_assoc]
        exact strStartsWith_append_self _ _)
      ("refetch-failure-" ++ k, n) hmem
    exact h1 rfl

/-- C10 witness: clearing by kind `"refetch"` on a concrete emitter with
refetch, refetch-failure (global and key-scoped) and expire listeners. -/
theorem clear_refetch_also_clears_refetch_failure_witness :
    ∃ em', clearEventListeners
             [("refetch", 1), ("refetch-failure", 2),
              ("refetch-failure-k", 3), ("expire", 4)]
             (some (some "refetch", none))
             = .ok (true, em')
      ∧ (∀ p : String × Nat, p ∈ em' → strStartsWith p.1 "refetch" = false)
      ∧ (∀ n : Nat, ¬(("refetch-failure", n) ∈ em'))
      ∧ (∀ k : String, ∀ n : Nat,
           ¬(("refetch-failure-" ++ k, n) ∈ em')) :=
  clear_refetch_also_clears_refetch_failure
    [("refetch", 1), ("refetch-failure", 2), ("refetch-failure-k", 3),
     ("expire", 4)]
